import Mathlib

/-!
# Verification of the session manager and live source overlay of
# MindFabric/claude-sidebar-electron

Shallow embedding of `src/main.js` (the Electron main process): the
terminal session registry with its per-session activity detector, the
Windows-to-WSL path translation, the editable-source overlay sync
(`ensureEditableSource`, `reset-app-source`, `reset-soul`), and the
debounced hot-reload file watcher.  Machine integers are modelled as
`Nat` (JavaScript `Date.now()` timestamps are nonnegative millisecond
counts; `now - windowStart` with JS number subtraction agrees with
truncated `Nat` subtraction on both comparisons the code performs,
since a negative difference fails `> 2000` and passes `< 3000` exactly
as `0` does).
-/

namespace ClaudeSidebar

/-! ## Platform helpers: `winToWslPath` (src/main.js lines 146-151)

```js
function winToWslPath(winPath) {
  if (!winPath || !IS_WIN) return winPath;
  const m = winPath.match(/^([A-Za-z]):[/\\](.*)/);
  if (!m) return winPath;
  return `/mnt/${m[1].toLowerCase()}/${m[2].replace(/\\/g, '/')}`;
}
```

The JS regex `.` does not match line terminators, so `(.*)` captures
the characters following the separator up to the first line
terminator; the replacement turns every backslash into a forward
slash.  The only falsy string is the empty string. -/

/-- A character the JS regex metacharacter `.` refuses to match
(`\n`, `\r`, U+2028, U+2029). -/
def isLineTerm (ch : Char) : Bool :=
  ch == '\n' || ch == '\r' || ch.toNat == 0x2028 || ch.toNat == 0x2029

/-- Whether a string matches `^([A-Za-z]):[/\\](.*)` — an ASCII
letter, a colon, then one slash or backslash (the `(.*)` tail may be
empty). -/
def matchesDrive (s : String) : Bool :=
  match s.data with
  | c :: d :: sep :: _ => d == ':' && c.isAlpha && (sep == '/' || sep == '\\')
  | _ => false

/-- `m[2].replace(/\\/g, '/')` on the captured tail. -/
def slashify (cs : List Char) : List Char :=
  cs.map (fun ch => if ch == '\\' then '/' else ch)

/-- Shallow embedding of `winToWslPath`; `isWin` stands for the
module-level `IS_WIN` constant. -/
def winToWslPath (isWin : Bool) (winPath : String) : String :=
  if winPath = "" || !isWin then winPath
  else
    match winPath.data with
    | c :: d :: sep :: rest =>
      if d == ':' && c.isAlpha && (sep == '/' || sep == '\\') then
        let m2 := rest.takeWhile (fun ch => !isLineTerm ch)
        "/mnt/" ++ String.singleton c.toLower ++ "/" ++ String.mk (slashify m2)
      else winPath
    | _ => winPath

/-! ## Terminal sessions (src/main.js lines 317-412)

`terminal-create` spawns a pty and installs `onData` / `onExit`
callbacks that close over two mutable variables `dataBytes` and
`windowStart`; the registry entry stores the pty handle, an `alive`
flag and an `isWorking` closure over those same variables.  We model
the closure state of each spawned process as a `Session` keyed by a
fresh process id, and the registry as an association list from the
caller-supplied id to an entry holding that process id and the
`alive` flag.  `pty.write` calls are recorded in a log so that
"writes nothing to the process input stream" is observable. -/

/-- Closure state `{dataBytes, windowStart}` of one spawned pty
(src/main.js lines 355-356). -/
structure Session where
  dataBytes : Nat
  windowStart : Nat
deriving Repr, DecidableEq

/-- One registry entry: the pty handle (as a process id) and the
`alive` flag (src/main.js lines 376-382). -/
structure TermEntry where
  pid : Nat
  alive : Bool
deriving Repr, DecidableEq

/-- The mutable module state around the `terminals` map: the registry,
the closure variables of every spawned pty, a fresh-pid counter for
`pty.spawn`, the log of `pty.write` calls and of `pty.kill`
attempts. -/
structure TermState where
  terminals : List (String × TermEntry)
  sessions : List (Nat × Session)
  nextPid : Nat
  writes : List (Nat × String)
  kills : List Nat
deriving Repr, DecidableEq

/-- `Map.get` on an association list (first binding wins, as a JS
`Map` has unique keys). -/
def alookup {α : Type} (l : List (String × α)) (k : String) : Option α :=
  match l with
  | [] => none
  | (k', v) :: rest => if k' = k then some v else alookup rest k

/-- `Map.set`: replace the binding in place if the key is present,
otherwise append. -/
def aset {α : Type} (l : List (String × α)) (k : String) (v : α) :
    List (String × α) :=
  match l with
  | [] => [(k, v)]
  | (k', v') :: rest =>
    if k' = k then (k, v) :: rest else (k', v') :: aset rest k v

/-- `Map.delete`. -/
def aerase {α : Type} (l : List (String × α)) (k : String) :
    List (String × α) :=
  match l with
  | [] => []
  | (k', v') :: rest =>
    if k' = k then aerase rest k else (k', v') :: aerase rest k

/-- Lookup among the spawned sessions by pid. -/
def slookup (l : List (Nat × Session)) (k : Nat) : Option Session :=
  match l with
  | [] => none
  | (k', v) :: rest => if k' = k then some v else slookup rest k

/-- Update a session's closure variables by pid. -/
def supdate (l : List (Nat × Session)) (k : Nat) (f : Session → Session) :
    List (Nat × Session) :=
  match l with
  | [] => []
  | (k', v) :: rest =>
    if k' = k then (k', f v) :: rest else (k', v) :: supdate rest k f

/-! ### Activity detector (src/main.js lines 355-382) -/

/-- The body of the `ptyProcess.onData` handler acting on the closure
variables (lines 358-364): lazy window reset, then accumulate the
chunk's byte length. -/
def onDataStep (s : Session) (now len : Nat) : Session :=
  let s' := if now - s.windowStart > 2000
    then { dataBytes := 0, windowStart := now }
    else s
  { s' with dataBytes := s'.dataBytes + len }

/-- Fold a timestamped output-event sequence `(now, len)` through the
`onData` handler. -/
def runEvents (s : Session) (evs : List (Nat × Nat)) : Session :=
  evs.foldl (fun acc e => onDataStep acc e.1 e.2) s

/-- The `isWorking` closure (line 380):
`dataBytes > 500 && (Date.now() - windowStart) < 3000`. -/
def isWorking (s : Session) (now : Nat) : Bool :=
  decide (s.dataBytes > 500) && decide (now - s.windowStart < 3000)

/-! ### Launch spec construction (src/main.js lines 317-353) -/

/-- What `pty.spawn(file, args, {cwd, ...})` receives. -/
structure LaunchSpec where
  file : String
  args : List String
  cwd : String
deriving Repr, DecidableEq

/-- The default `CLAUDE_CMD` when the override variable is absent
(line 11). -/
def defaultClaudeCmd : String := "claude --dangerously-skip-permissions"

/-- The command line and spawn options built by `terminal-create`
for the platform (lines 327-353).  `shellEnv` is `process.env.SHELL`,
`dir` the already-defaulted working directory. -/
def launchSpec (isWin : Bool) (shellEnv : Option String)
    (claudeCmd : String) (dir : String) (resume : Bool) : LaunchSpec :=
  if isWin then
    let wslDir := winToWslPath isWin dir
    let claudeArg :=
      if resume then
        "cd \"" ++ wslDir ++ "\" && " ++ claudeCmd ++ " --continue; exec bash"
      else
        "cd \"" ++ wslDir ++ "\" && " ++ claudeCmd ++ "; exec bash"
    { file := "wsl.exe", args := ["bash", "-c", claudeArg], cwd := dir }
  else
    let shell := shellEnv.getD "/bin/bash"
    let cmd :=
      if resume then
        "cd \"" ++ dir ++ "\" && " ++ claudeCmd ++ " --continue"
      else
        "cd \"" ++ dir ++ "\" && " ++ claudeCmd
    { file := shell, args := ["-c", cmd ++ "; exec " ++ shell], cwd := dir }

/-- What the `terminal-create` handler returns to the renderer:
`return { id }` (line 383). -/
structure CreateReply where
  id : String
deriving Repr, DecidableEq

/-- The `terminal-create` handler (lines 317-384).  `cwd` is the
optional argument (`undefined` or the empty string fall back to
`os.homedir()` via `cwd || home`); `now` is `Date.now()` at creation.
It unconditionally spawns a fresh pty, installs fresh closure
variables for it, stores the entry under `id` (a JS `Map.set`, which
replaces any existing binding) and replies `{id}`. -/
def terminalCreate (isWin : Bool) (shellEnv : Option String)
    (claudeCmd : String) (home : String) (id : String)
    (cwd : Option String) (resume : Bool) (now : Nat) (st : TermState) :
    CreateReply × LaunchSpec × TermState :=
  let dir := match cwd with
    | none => home
    | some c => if c = "" then home else c
  let spec := launchSpec isWin shellEnv claudeCmd dir resume
  let pid := st.nextPid
  ( { id := id }, spec,
    { st with
      terminals := aset st.terminals id { pid := pid, alive := true }
      sessions := (pid, { dataBytes := 0, windowStart := now }) :: st.sessions
      nextPid := pid + 1 } )

/-- The `ptyProcess.onData` callback of the pty with process id `pid`
(lines 358-369): updates that pty's closure variables (the registry is
not consulted for the byte accounting). -/
def onData (pid : Nat) (len now : Nat) (st : TermState) : TermState :=
  { st with sessions := supdate st.sessions pid (fun s => onDataStep s now len) }

/-- The `ptyProcess.onExit` callback (lines 371-374): looks the id up
in the registry and, if present, clears its `alive` flag; the entry
itself stays. -/
def onExit (id : String) (st : TermState) : TermState :=
  match alookup st.terminals id with
  | none => st
  | some e =>
    { st with terminals := aset st.terminals id { e with alive := false } }

/-- The `terminal-input` handler (lines 386-391): writes to the pty
only when the id is present and alive. -/
def sendInput (id : String) (data : String) (st : TermState) : TermState :=
  match alookup st.terminals id with
  | none => st
  | some e =>
    if e.alive then { st with writes := st.writes ++ [(e.pid, data)] } else st

/-- The `terminal-destroy` handler (lines 400-406): if the id is
present, attempt `pty.kill()` inside `try { } catch (_) {}` (the
attempt is recorded; `killFails` says whether the call threw, and the
failure is swallowed either way), then delete the entry
unconditionally. -/
def terminalDestroy (id : String) (killFails : Bool) (st : TermState) :
    TermState :=
  match alookup st.terminals id with
  | none => st
  | some e =>
    { st with
      kills := st.kills ++ [e.pid]
      terminals := aerase st.terminals id }

/-- The `terminal-is-active` handler (lines 408-412): `false` if the
id is absent, otherwise the stored entry's `isWorking` closure — the
`alive` flag is not consulted. -/
def isActive (id : String) (now : Nat) (st : TermState) : Bool :=
  match alookup st.terminals id with
  | none => false
  | some e =>
    match slookup st.sessions e.pid with
    | none => false
    | some s => isWorking s now

/-! ## Live source overlay (src/main.js lines 15-138, 275-313)

A directory is modelled as an association list from file name to file
content.  `ensureEditableSource` is embedded with its observable
actions recorded in an event list, so that "zero file copies and zero
sidecar rewrites" is a statement about the event log.  The code wraps
none of its `fs.copyFileSync` calls in try/catch, so a copy failure is
an exception that propagates out of the whole function; we model
fallible copies by a `fails` predicate on the source file name, and a
failing copy ends the run with `thrown` set, the remaining steps
unexecuted.  `fs.writeFileSync` / `fs.mkdirSync` calls are modelled as
infallible (the claims under study concern copy failures). -/

/-- A directory: file name to content. -/
abbrev Dir : Type := List (String × String)

/-- `fs.existsSync` within a directory. -/
def dexists (d : Dir) (f : String) : Bool :=
  (alookup d f).isSome

/-- `EDITABLE_FILES` (src/main.js line 20). -/
def EDITABLE_FILES : List String := ["renderer.js", "styles.css", "index.html"]

/-- The sidecar file `.source-hash` (line 36). -/
def sidecarName : String := ".source-hash"

/-- The guidance document `CLAUDE.md` (line 72). -/
def soulName : String := "CLAUDE.md"

/-- The copied xterm asset tree (line 63), modelled as one entry. -/
def xtermName : String := "node_modules/@xterm"

/-- The bridge file `preload.js` (line 69). -/
def preloadName : String := "preload.js"

/-- `hashFiles(dir, files)` (lines 22-29) feeds the contents of the
existing files, in order, into a SHA-256 hash.  The digest is modelled
by the concatenated hash input itself: every claim under study only
compares digests for equality, never inspects them. -/
def hashFiles (d : Dir) (files : List String) : String :=
  String.join (files.filterMap (fun f => alookup d f))

/-- Observable actions of a sync run. -/
inductive SyncEv where
  | copyEditable (f : String)
  | writeSidecar (h : String)
  | copyXterm
  | copyPreload
  | writeSoul
deriving Repr, DecidableEq

/-- Whether an event is a copy of an editable file. -/
def SyncEv.isEditableCopy : SyncEv → Bool
  | .copyEditable _ => true
  | _ => false

/-- Whether an event is a rewrite of the digest sidecar. -/
def SyncEv.isSidecarWrite : SyncEv → Bool
  | .writeSidecar _ => true
  | _ => false

/-- Outcome of a sync or reset run: the resulting overlay directory,
the event log, and — when a copy threw — the source file name of the
failed copy (`none` means the run returned normally). -/
structure SyncResult where
  overlay : Dir
  events : List SyncEv
  thrown : Option String
deriving Repr, DecidableEq

/-- The editable-file copy loop (lines 43-55 and, with `always :=
true`, lines 276-282): for each file present in the bundle, copy it
when the overlay copy is missing or the loop copies unconditionally;
a failing `fs.copyFileSync` aborts the loop, the remaining files
unprocessed. -/
def copyEditableLoop (bundle : Dir) (fails : String → Bool) (always : Bool) :
    List String → Dir → List SyncEv → Dir × List SyncEv × Option String
  | [], ov, evs => (ov, evs, none)
  | f :: rest, ov, evs =>
    if (alookup bundle f).isNone then
      copyEditableLoop bundle fails always rest ov evs
    else if !dexists ov f || always then
      if fails f then (ov, evs, some f)
      else
        copyEditableLoop bundle fails always rest
          (aset ov f ((alookup bundle f).getD ""))
          (evs ++ [SyncEv.copyEditable f])
    else
      copyEditableLoop bundle fails always rest ov evs

/-- The default guidance document written at line 74 (the template
literal of src/main.js lines 74-122). -/
def defaultSoul : String := String.intercalate "\n" [
  "# Soul",
  "",
  "You are the System Claude — the built-in AI assistant living inside Claude Sidebar. You are not a generic chatbot. You are a personal programming partner embedded directly in the developer's workspace.",
  "",
  "## Who you are",
  "",
  "- You can see and edit the app you're running inside of. You are self-aware of your environment.",
  "- You are a co-pilot, not a servant. Push back on bad ideas. Suggest better approaches. Be honest.",
  "- You are concise. The developer is working, not reading essays. Short answers, real code, no fluff.",
  "- You have opinions. When asked \"what should I do?\" — answer decisively, don't hedge with \"it depends.\"",
  "- You remember context within a session. Don't re-explain things the developer already knows.",
  "- When the developer is debugging, think out loud. Walk through the problem step by step.",
  "- You care about craft. Clean code, good naming, minimal complexity. No over-engineering.",
  "",
  "## What you can do",
  "",
  "You live in the app-source directory. You can modify the sidebar app itself in real time:",
  "",
  "### Editable files:",
  "- **renderer.js** - All client-side logic (collections, tabs, grid, keybindings)",
  "- **styles.css** - All styling (dark theme, layout, colors)",
  "- **index.html** - HTML structure",
  "",
  "### Plugins:",
  "- Drop .js or .css files in the `plugins/` folder",
  "- JS plugins are auto-loaded as `<script>` tags after renderer.js",
  "- CSS plugins are auto-loaded as `<link>` tags after styles.css",
  "",
  "### Key conventions:",
  "- Accent color: #D97757 (orange)",
  "- Background: #1a1a1a",
  "- Font: Share Tech Mono",
  "- The `claude` object (from preload.js) provides IPC to the main process",
  "- Do NOT edit preload.js (it's overwritten on reload for security)",
  "",
  "### After editing:",
  "The app auto-reloads when you save changes. CSS changes hot-swap without losing state. JS/HTML changes trigger a full reload but conversation resumes via --continue.",
  "",
  "## How you help",
  "",
  "Beyond self-modification, you're here to help the developer with whatever they're building across their other sessions. They might ask you to:",
  "- Debug a problem they're stuck on in another project",
  "- Think through architecture decisions",
  "- Review code or approaches",
  "- Write utilities, scripts, or one-off tools",
  "- Brainstorm solutions",
  "",
  "You are their thinking partner. Act like it.",
  ""]

/-- JavaScript `String.prototype.trim()` on the cached digest (line
39), modelled structurally: strip leading and trailing whitespace
characters.  (The digests under study carry no boundary whitespace,
so only the identity case is ever exercised.) -/
def jsTrim (s : String) : String :=
  String.mk
    (((s.data.dropWhile Char.isWhitespace).reverse.dropWhile
      Char.isWhitespace).reverse)

/-- The tail of `ensureEditableSource` after the xterm step: the
unconditional `preload.js` copy (line 69) and the guidance-document
write when absent (lines 72-123). -/
def ensureTail (bundle : Dir) (fails : String → Bool) (ov : Dir)
    (evs : List SyncEv) : SyncResult :=
  if fails preloadName then
    { overlay := ov, events := evs, thrown := some preloadName }
  else
    let ov' := aset ov preloadName ((alookup bundle preloadName).getD "")
    let evs' := evs ++ [SyncEv.copyPreload]
    if !dexists ov' soulName then
      { overlay := aset ov' soulName defaultSoul
        events := evs' ++ [SyncEv.writeSoul]
        thrown := none }
    else
      { overlay := ov', events := evs', thrown := none }

/-- The asset steps of `ensureEditableSource` after the hash-gated
loop: the presence-gated xterm asset copy (lines 62-66), then
`ensureTail`. -/
def ensureAssets (bundle : Dir) (fails : String → Bool) (ov : Dir)
    (evs : List SyncEv) : SyncResult :=
  if !dexists ov xtermName then
    if fails xtermName then
      { overlay := ov, events := evs, thrown := some xtermName }
    else
      ensureTail bundle fails
        (aset ov xtermName ((alookup bundle xtermName).getD ""))
        (evs ++ [SyncEv.copyXterm])
  else
    ensureTail bundle fails ov evs

/-- `ensureEditableSource()` (lines 31-124).  `bundle` is `__dirname`,
`overlay` is `APP_SOURCE_DIR`.  Compute the bundled digest, read and
trim the cached digest (empty on read failure), run the hash-gated
editable-file copy loop, persist the new digest only when it changed,
copy the xterm assets only when absent, then the unconditional bridge
copy and the guidance-document check. -/
def ensureEditableSource (bundle : Dir) (fails : String → Bool)
    (overlay : Dir) : SyncResult :=
  let bundledHash := hashFiles bundle EDITABLE_FILES
  let cachedHash := jsTrim ((alookup overlay sidecarName).getD "")
  let sourceUpdated := bundledHash != cachedHash
  match copyEditableLoop bundle fails sourceUpdated EDITABLE_FILES overlay [] with
  | (ov, evs, some f) => { overlay := ov, events := evs, thrown := some f }
  | (ov, evs, none) =>
    let ov' := if sourceUpdated then aset ov sidecarName bundledHash else ov
    let evs' := if sourceUpdated
      then evs ++ [SyncEv.writeSidecar bundledHash] else evs
    ensureAssets bundle fails ov' evs'

/-- The `reset-app-source` handler (lines 275-284): copy every
editable file present in the bundle over the overlay, unconditionally,
with no try/catch around the copies. -/
def resetAppSource (bundle : Dir) (fails : String → Bool)
    (overlay : Dir) : SyncResult :=
  match copyEditableLoop bundle fails true EDITABLE_FILES overlay [] with
  | (ov, evs, err) => { overlay := ov, events := evs, thrown := err }

/-- The `reset-soul` handler (lines 286-292): delete the guidance
document (`unlinkSync` failure swallowed), then re-run the full
sync. -/
def resetSoul (bundle : Dir) (fails : String → Bool) (overlay : Dir) :
    SyncResult :=
  ensureEditableSource bundle fails (aerase overlay soulName)

/-! ## Debounced hot-reload watcher (src/main.js lines 189-230)

Both `fs.watch` callbacks (overlay root and plugin directory) share
the single `debounce` timer variable: a qualifying event clears any
pending timer and arms a fresh one whose closure performs the action
determined by that event's file name.  We model the set of live
pending timers as a list of actions (arming appends one, clearing
empties it), so "at most one pending timer" is a statement about the
list's length, and the action that fires after a quiet period is the
content of the surviving list. -/

/-- Which watched directory an event came from. -/
inductive WatchSrc where
  | mainDir
  | pluginsDir
deriving Repr, DecidableEq

/-- What a fired timer does: `patch` is the CSS hot-swap push
(`hot-reload-css`), `reload` is save-state followed by
`reloadIgnoringCache`. -/
inductive WatchAction where
  | patch
  | reload
deriving Repr, DecidableEq

/-- Whether an event reaches the debounce logic: the overlay-root
callback requires an editable file name or a `.css`/`.js` suffix
(lines 194-197); the plugin-directory callback only requires a
non-null file name (line 220). -/
def qualifies : WatchSrc → Option String → Bool
  | _, none => false
  | .mainDir, some f =>
    EDITABLE_FILES.contains f || f.endsWith ".css" || f.endsWith ".js"
  | .pluginsDir, some _ => true

/-- The action the armed timer will perform for a qualifying event:
exactly `styles.css` in the overlay root hot-swaps CSS (line 204);
every other qualifying event, including any plugin change, forces a
full reload. -/
def classify : WatchSrc → String → WatchAction
  | .mainDir, f => if f == "styles.css" then .patch else .reload
  | .pluginsDir, _ => .reload

/-- One filesystem change notification hitting the shared debounce:
a non-qualifying event leaves the pending timers alone; a qualifying
one clears them all (`clearTimeout`) and arms exactly one new timer
(`setTimeout`) holding its classified action. -/
def handleWatchEvent (pending : List WatchAction)
    (ev : WatchSrc × Option String) : List WatchAction :=
  if qualifies ev.1 ev.2 then
    match ev.2 with
    | some f => [classify ev.1 f]
    | none => pending
  else pending

/-- Run a burst of change notifications through the shared debounce,
starting from pending-timer state `st`. -/
def runWatch (st : List WatchAction)
    (evs : List (WatchSrc × Option String)) : List WatchAction :=
  evs.foldl handleWatchEvent st

/-- The last qualifying event of a burst, with its file name. -/
def lastQualifying :
    List (WatchSrc × Option String) → Option (WatchSrc × String)
  | [] => none
  | ev :: rest =>
    match lastQualifying rest with
    | some q => some q
    | none =>
      match ev.2 with
      | some f => if qualifies ev.1 (some f) then some (ev.1, f) else none
      | none => none

/-! ## Concrete fixtures for witnesses and counterexamples -/

/-- The module state before any `terminal-create` call. -/
def emptyTermState : TermState :=
  { terminals := [], sessions := [], nextPid := 0, writes := [], kills := [] }

/-- A small concrete bundle (`__dirname`) with all the files
`ensureEditableSource` touches. -/
def bundleEx : Dir :=
  [("renderer.js", "R1"), ("styles.css", "S1"), ("index.html", "H1"),
   ("node_modules/@xterm", "X1"), ("preload.js", "P1")]

/-- A fault-free filesystem: no `fs.copyFileSync` call throws. -/
def noFail : String → Bool := fun _ => false

/-- A run of `terminal-create` for id `"a"` from the empty state at
time 0 (non-Windows platform, no cwd, no resume). -/
def stCreateA : TermState :=
  (terminalCreate false none defaultClaudeCmd "/home/u" "a" none false 0
    emptyTermState).2.2

/-- After 600 bytes of output at t = 1000 and the pty's exit
notification: the session is exited but not destroyed. -/
def stExitedA : TermState :=
  onExit "a" (onData 0 600 1000 stCreateA)

/-- The overlay after a first fault-free sync from an empty overlay
against `bundleEx`. -/
def overlayAfterFirstSync : Dir :=
  (ensureEditableSource bundleEx noFail []).overlay

/-- A `styles.css` change in the overlay root (classified `patch`). -/
def evCss : WatchSrc × Option String := (WatchSrc.mainDir, some "styles.css")

/-- A `renderer.js` change in the overlay root (classified
`reload`). -/
def evJs : WatchSrc × Option String := (WatchSrc.mainDir, some "renderer.js")

/-! ## Helper lemmas on the association-list operations -/

theorem alookup_aset_self {α : Type} (l : List (String × α)) (k : String)
    (v : α) : alookup (aset l k v) k = some v := by
  induction l with
  | nil => simp [aset, alookup]
  | cons p rest ih =>
    obtain ⟨k', v'⟩ := p
    by_cases h : k' = k
    · simp [aset, alookup, h]
    · simp [aset, alookup, h, ih]

theorem alookup_aset_ne {α : Type} (l : List (String × α)) (k' k : String)
    (v : α) (h : k' ≠ k) : alookup (aset l k' v) k = alookup l k := by
  induction l with
  | nil => simp [aset, alookup, h]
  | cons p rest ih =>
    obtain ⟨k'', v''⟩ := p
    by_cases h2 : k'' = k'
    · subst h2
      simp [aset, alookup, h]
    · by_cases h3 : k'' = k
      · subst h3
        simp [aset, alookup, h2]
      · simp [aset, alookup, h2, h3, ih]

theorem alookup_aerase {α : Type} (l : List (String × α)) (k : String) :
    alookup (aerase l k) k = none := by
  induction l with
  | nil => simp [aerase, alookup]
  | cons p rest ih =>
    obtain ⟨k', v'⟩ := p
    by_cases h : k' = k
    · simpa [aerase, alookup, h] using ih
    · simpa [aerase, alookup, h] using ih

theorem alookup_aerase_ne {α : Type} (l : List (String × α)) (k' k : String)
    (h : k' ≠ k) : alookup (aerase l k') k = alookup l k := by
  induction l with
  | nil => simp [aerase, alookup]
  | cons p rest ih =>
    obtain ⟨k'', v''⟩ := p
    by_cases h2 : k'' = k'
    · subst h2
      simp [aerase, alookup, ih, h]
    · by_cases h3 : k'' = k
      · subst h3
        simp [aerase, alookup, h2]
      · simp [aerase, alookup, h2, h3, ih]

/-! ## Helper lemmas on the copy loop and sync tail -/

theorem copyEditableLoop_nofail (bundle : Dir) (always : Bool) :
    ∀ (files : List String) (ov : Dir) (evs : List SyncEv),
      (copyEditableLoop bundle noFail always files ov evs).2.2 = none := by
  intro files
  induction files with
  | nil => intro ov evs; simp [copyEditableLoop]
  | cons f rest ih =>
    intro ov evs
    simp only [copyEditableLoop, noFail]
    split
    · exact ih ov evs
    · split
      · exact ih _ _
      · exact ih ov evs

theorem copyEditableLoop_lookup_ne (bundle : Dir) (fails : String → Bool)
    (always : Bool) (k : String) :
    ∀ (files : List String) (ov : Dir) (evs : List SyncEv), k ∉ files →
      alookup (copyEditableLoop bundle fails always files ov evs).1 k =
        alookup ov k := by
  intro files
  induction files with
  | nil => intro ov evs _; simp [copyEditableLoop]
  | cons f rest ih =>
    intro ov evs hk
    have hfk : f ≠ k := fun h => hk (h ▸ List.mem_cons_self f rest)
    have hk' : k ∉ rest := fun h => hk (List.mem_cons_of_mem f h)
    simp only [copyEditableLoop]
    split
    · exact ih ov evs hk'
    · split
      · split
        · rfl
        · rw [ih _ _ hk', alookup_aset_ne _ _ _ _ hfk]
      · exact ih ov evs hk'

theorem copyEditableLoop_skip (bundle : Dir) (fails : String → Bool) :
    ∀ (files : List String) (ov : Dir) (evs : List SyncEv),
      (∀ f ∈ files, dexists ov f = true) →
      copyEditableLoop bundle fails false files ov evs = (ov, evs, none) := by
  intro files
  induction files with
  | nil => intro ov evs _; simp [copyEditableLoop]
  | cons f rest ih =>
    intro ov evs hex
    have hf : dexists ov f = true := hex f (List.mem_cons_self f rest)
    have hrest : ∀ g ∈ rest, dexists ov g = true :=
      fun g hg => hex g (List.mem_cons_of_mem f hg)
    simp only [copyEditableLoop, hf]
    split
    · exact ih ov evs hrest
    · simp
      exact ih ov evs hrest

theorem ensureTail_lookup_soul (bundle : Dir) (fails : String → Bool)
    (ov : Dir) (evs : List SyncEv) (c : String)
    (h : alookup ov soulName = some c) :
    alookup (ensureTail bundle fails ov evs).overlay soulName = some c := by
  have hne : preloadName ≠ soulName := by decide
  unfold ensureTail
  split
  · exact h
  · have hpre : alookup (aset ov preloadName
        ((alookup bundle preloadName).getD "")) soulName = some c := by
      rw [alookup_aset_ne _ _ _ _ hne]; exact h
    have hd : dexists (aset ov preloadName
        ((alookup bundle preloadName).getD "")) soulName = true := by
      simp [dexists, hpre]
    simp only [hd, Bool.not_true]
    simp [hpre]

theorem ensureTail_writes_soul (bundle : Dir) (fails : String → Bool)
    (ov : Dir) (evs : List SyncEv)
    (hf : fails preloadName = false) (h : alookup ov soulName = none) :
    alookup (ensureTail bundle fails ov evs).overlay soulName =
      some defaultSoul := by
  have hne : preloadName ≠ soulName := by decide
  unfold ensureTail
  simp only [hf]
  have hpre : alookup (aset ov preloadName
      ((alookup bundle preloadName).getD "")) soulName = none := by
    rw [alookup_aset_ne _ _ _ _ hne]; exact h
  have hd : dexists (aset ov preloadName
      ((alookup bundle preloadName).getD "")) soulName = false := by
    simp [dexists, hpre]
  simp only [hd, Bool.not_false, if_true]
  simp [alookup_aset_self]

theorem ensureTail_filter (bundle : Dir) (fails : String → Bool)
    (ov : Dir) (evs : List SyncEv) (p : SyncEv → Bool)
    (hp1 : p SyncEv.copyPreload = false) (hp2 : p SyncEv.writeSoul = false) :
    (ensureTail bundle fails ov evs).events.filter p = evs.filter p := by
  unfold ensureTail
  by_cases hf : fails preloadName = true
  · simp [hf]
  · simp only [hf, if_false, Bool.false_eq_true]
    split <;> simp [List.filter_append, hp1, hp2]

theorem ensureAssets_lookup_soul (bundle : Dir) (fails : String → Bool)
    (ov : Dir) (evs : List SyncEv) (c : String)
    (h : alookup ov soulName = some c) :
    alookup (ensureAssets bundle fails ov evs).overlay soulName = some c := by
  have hnx : xtermName ≠ soulName := by decide
  unfold ensureAssets
  split
  · split
    · exact h
    · refine ensureTail_lookup_soul _ _ _ _ _ ?_
      rw [alookup_aset_ne _ _ _ _ hnx]
      exact h
  · exact ensureTail_lookup_soul _ _ _ _ _ h

theorem ensureAssets_writes_soul (bundle : Dir) (fails : String → Bool)
    (ov : Dir) (evs : List SyncEv)
    (hfx : fails xtermName = false) (hfp : fails preloadName = false)
    (h : alookup ov soulName = none) :
    alookup (ensureAssets bundle fails ov evs).overlay soulName =
      some defaultSoul := by
  have hnx : xtermName ≠ soulName := by decide
  unfold ensureAssets
  split
  · simp only [hfx, Bool.false_eq_true, if_false]
    refine ensureTail_writes_soul _ _ _ _ hfp ?_
    rw [alookup_aset_ne _ _ _ _ hnx]
    exact h
  · exact ensureTail_writes_soul _ _ _ _ hfp h

theorem ensureAssets_filter (bundle : Dir) (fails : String → Bool)
    (ov : Dir) (evs : List SyncEv) (p : SyncEv → Bool)
    (hpx : p SyncEv.copyXterm = false)
    (hp1 : p SyncEv.copyPreload = false)
    (hp2 : p SyncEv.writeSoul = false) :
    (ensureAssets bundle fails ov evs).events.filter p = evs.filter p := by
  unfold ensureAssets
  split
  · split
    · rfl
    · rw [ensureTail_filter _ _ _ _ _ hp1 hp2]
      simp [List.filter_append, hpx]
  · exact ensureTail_filter _ _ _ _ _ hp1 hp2

/-! ## Helper lemma on the debounced watcher -/

theorem runWatch_last (evs : List (WatchSrc × Option String)) :
    ∀ st : List WatchAction,
      runWatch st evs =
        match lastQualifying evs with
        | none => st
        | some q => [classify q.1 q.2] := by
  induction evs with
  | nil => intro st; rfl
  | cons e rest ih =>
    intro st
    show runWatch (handleWatchEvent st e) rest = _
    rw [ih]
    cases hq : lastQualifying rest with
    | some q => simp [lastQualifying, hq]
    | none =>
      simp only [lastQualifying, hq]
      obtain ⟨src, fn⟩ := e
      cases fn with
      | none => simp [handleWatchEvent, qualifies]
      | some f =>
        by_cases hqf : qualifies src (some f) = true
        · simp [handleWatchEvent, hqf]
        · simp [handleWatchEvent, hqf]

/-! ## Claim theorems -/

/-- **C1** (amended): `terminal-create` performs no duplicate check at
all.  Every call — whatever the registry holds, in particular when
`id` is already present with an alive session — spawns a fresh
process (the pid counter advances), stores a fresh session entry under
`id` (replacing any existing binding) and replies `{id}`; no
`DuplicateSession` error exists in the handler. -/
theorem terminalCreate_always_spawns_replaces
    (isWin : Bool) (shellEnv : Option String) (claudeCmd home id : String)
    (cwd : Option String) (resume : Bool) (now : Nat) (st : TermState) :
    (terminalCreate isWin shellEnv claudeCmd home id cwd resume now st).1 =
      { id := id } ∧
    (terminalCreate isWin shellEnv claudeCmd home id cwd resume now
      st).2.2.nextPid = st.nextPid + 1 ∧
    alookup (terminalCreate isWin shellEnv claudeCmd home id cwd resume now
      st).2.2.terminals id = some { pid := st.nextPid, alive := true } ∧
    slookup (terminalCreate isWin shellEnv claudeCmd home id cwd resume now
      st).2.2.sessions st.nextPid =
      some { dataBytes := 0, windowStart := now } := by
  refine ⟨rfl, rfl, ?_, ?_⟩
  · simp [terminalCreate, alookup_aset_self]
  · simp [terminalCreate, slookup]

/-- **C1** counterexample: with `"a"` present in the registry and
alive (pid 0), a second `create("a")` is *not* rejected: it replies
`{id := "a"}` normally, spawns a fresh process (pid counter goes from
1 to 2) and replaces the stored entry (now pid 1), contradicting
"signals a DuplicateSession error and does not spawn a new process or
replace the stored entry". -/
theorem terminalCreate_duplicate_not_rejected :
    alookup stCreateA.terminals "a" = some { pid := 0, alive := true } ∧
    (terminalCreate false none defaultClaudeCmd "/home/u" "a" none false 500
      stCreateA).1 = { id := "a" } ∧
    alookup (terminalCreate false none defaultClaudeCmd "/home/u" "a" none
      false 500 stCreateA).2.2.terminals "a" =
      some { pid := 1, alive := true } ∧
    (terminalCreate false none defaultClaudeCmd "/home/u" "a" none false 500
      stCreateA).2.2.nextPid = 2 := by
  refine ⟨by decide, rfl, by decide, by decide⟩

/-- **C2** (amended): for an exited-but-not-destroyed session (entry
present, `alive = false`), `sendInput` writes nothing to the process
input stream; but `terminal-is-active` does not consult the `alive`
flag — it keeps returning the activity heuristic, which is `false`
at every time at least 3000ms past the last window start (and no
output event arrives after exit to move the window). -/
theorem exited_session_no_input_eventually_inactive
    (st : TermState) (id data : String) (e : TermEntry) (s : Session)
    (now : Nat) (h1 : alookup st.terminals id = some e)
    (h2 : e.alive = false) (h3 : slookup st.sessions e.pid = some s)
    (h4 : s.windowStart + 3000 ≤ now) :
    sendInput id data st = st ∧ isActive id now st = false := by
  constructor
  · simp [sendInput, h1, h2]
  · simp only [isActive, h1, h3, isWorking]
    simp only [Bool.and_eq_false_iff, decide_eq_false_iff_not]
    right
    omega

/-- **C2** witness: the concrete exited session `stExitedA`
(600 bytes at t = 1000, window start 0, exited at some later point)
accepts no input and reports inactive at t = 3100. -/
theorem exited_session_no_input_eventually_inactive_witness :
    sendInput "a" "x" stExitedA = stExitedA ∧
    isActive "a" 3100 stExitedA = false :=
  exited_session_no_input_eventually_inactive stExitedA "a" "x"
    { pid := 0, alive := false } { dataBytes := 600, windowStart := 0 } 3100
    (by decide) (by decide) (by decide) (by decide)

/-- **C2** counterexample: the same exited session still *reports
active* at t = 1200 (600 bytes in a window 1200ms old), although its
process has exited (`alive = false`, entry still registered) —
contradicting "isActive(id) returns false … at every time after the
exit notification": the handler never reads the `alive` flag. -/
theorem exited_session_reports_active :
    alookup stExitedA.terminals "a" = some { pid := 0, alive := false } ∧
    isActive "a" 1200 stExitedA = true := by
  decide

/-- **C3** (confirmed): each output event first performs the lazy
reset exactly when `now − windowStart > 2000`, then adds the event's
byte length; `isWorking` holds iff more than 500 bytes are in the
window and the window is younger than 3000ms; immediately after a
lazy reset the flag is false (at any query time) until more than 500
bytes re-accumulate; and a window at least 3000ms old is reported
inactive with no new event needed.  Event sequences are processed one
event at a time in order. -/
theorem activity_window_characterization
    (s : Session) (now len now2 : Nat) (evs : List (Nat × Nat)) :
    (onDataStep s now len =
      if now - s.windowStart > 2000
      then { dataBytes := len, windowStart := now }
      else { dataBytes := s.dataBytes + len,
             windowStart := s.windowStart }) ∧
    (isWorking s now = true ↔
      (s.dataBytes > 500 ∧ now - s.windowStart < 3000)) ∧
    (now - s.windowStart > 2000 → len ≤ 500 →
      isWorking (onDataStep s now len) now2 = false) ∧
    (3000 ≤ now - s.windowStart → isWorking s now = false) ∧
    (runEvents s ((now, len) :: evs) =
      runEvents (onDataStep s now len) evs) := by
  refine ⟨?_, ?_, ?_, ?_, rfl⟩
  · unfold onDataStep
    split <;> simp
  · simp [isWorking]
  · intro h1 h2
    simp only [onDataStep, if_pos h1, isWorking]
    simp only [Bool.and_eq_false_iff, decide_eq_false_iff_not]
    left
    omega
  · intro h
    simp only [isWorking, Bool.and_eq_false_iff, decide_eq_false_iff_not]
    right
    omega

/-- **C3** witness: a 100-byte event at t = 2500 on a window started
at 0 resets the window and leaves the detector inactive; a
600-byte window that is 3200ms old is inactive with no new
event. -/
theorem activity_window_characterization_witness :
    isWorking (onDataStep { dataBytes := 600, windowStart := 0 } 2500 100)
      2600 = false ∧
    isWorking { dataBytes := 600, windowStart := 0 } 3200 = false :=
  ⟨(activity_window_characterization { dataBytes := 600, windowStart := 0 }
      2500 100 2600 []).2.2.1 (by decide) (by decide),
   (activity_window_characterization { dataBytes := 600, windowStart := 0 }
      3200 0 0 []).2.2.2.1 (by decide)⟩

/-- **C8** (confirmed): `terminal-destroy` removes the entry
unconditionally — the `pty.kill()` failure is swallowed
(`killFails` does not affect the outcome) — after which the id is
absent, `isActive` is false and `sendInput` is a no-op, until a
fresh `create` stores a new entry under that id. -/
theorem destroy_removes_entry_unconditionally
    (st : TermState) (id data : String) (kf : Bool) (now : Nat)
    (e : TermEntry) :
    alookup (terminalDestroy id kf st).terminals id = none ∧
    isActive id now (terminalDestroy id kf st) = false ∧
    sendInput id data (terminalDestroy id kf st) = terminalDestroy id kf st ∧
    terminalDestroy id true st = terminalDestroy id false st ∧
    (alookup st.terminals id = some e →
      (terminalDestroy id kf st).terminals = aerase st.terminals id) := by
  have hnone : alookup (terminalDestroy id kf st).terminals id = none := by
    unfold terminalDestroy
    cases h : alookup st.terminals id with
    | none => simpa using h
    | some e2 => simp [alookup_aerase]
  refine ⟨hnone, ?_, ?_, rfl, ?_⟩
  · simp [isActive, hnone]
  · simp [sendInput, hnone]
  · intro h
    unfold terminalDestroy
    rw [h]

/-- **C8** witness: destroying the live session `"a"` of `stCreateA`
(with a failing kill) leaves exactly the registry with `"a"`
erased. -/
theorem destroy_removes_entry_unconditionally_witness :
    (terminalDestroy "a" true stCreateA).terminals =
      aerase stCreateA.terminals "a" :=
  (destroy_removes_entry_unconditionally stCreateA "a" "x" true 0
    { pid := 0, alive := true }).2.2.2.2 (by decide)

/-- **C9** (confirmed): on Windows, a path of drive-letter form
`X:\a\b` (made of ordinary path characters) is rewritten to
`/mnt/x/a/b` — drive letter lower-cased, backslashes turned into
forward slashes — and any input that does not match the drive-letter
pattern, the empty string included, is returned unchanged.  The
embedding is a total pure function: it performs no I/O and cannot
fail. -/
theorem winToWslPath_drive_rewrite_else_identity
    (c : Char) (rest : List Char) (s : String) :
    (c.isAlpha = true → (∀ ch ∈ rest, isLineTerm ch = false) →
      winToWslPath true (String.mk (c :: ':' :: '\\' :: rest)) =
        "/mnt/" ++ String.singleton c.toLower ++ "/" ++
          String.mk (slashify rest)) ∧
    (matchesDrive s = false → winToWslPath true s = s) ∧
    winToWslPath true "" = "" := by
  refine ⟨?_, ?_, by decide⟩
  · intro hA hLT
    have hne : ¬(String.mk (c :: ':' :: '\\' :: rest) = "") := by
      simp [String.ext_iff]
    have htw : rest.takeWhile (fun ch => !isLineTerm ch) = rest :=
      List.takeWhile_eq_self_iff.mpr (by simpa using hLT)
    simp [winToWslPath, hne, hA, htw]
  · intro h
    obtain ⟨l⟩ := s
    match l with
    | [] => rfl
    | [c1] =>
      simp only [winToWslPath]
      split <;> rfl
    | [c1, c2] =>
      simp only [winToWslPath]
      split <;> rfl
    | c1 :: c2 :: c3 :: t =>
      simp only [matchesDrive] at h
      simp only [winToWslPath, h, Bool.false_eq_true, if_false]
      split <;> rfl

/-- **C9** witness: `C:\Users\alice\proj` rewrites to
`/mnt/c/Users/alice/proj`; `relative\path` does not match the pattern
and passes through unchanged. -/
theorem winToWslPath_drive_rewrite_else_identity_witness :
    winToWslPath true
        (String.mk ('C' :: ':' :: '\\' :: "Users\\alice\\proj".data)) =
      "/mnt/" ++ String.singleton 'C'.toLower ++ "/" ++
        String.mk (slashify "Users\\alice\\proj".data) ∧
    winToWslPath true "relative\\path" = "relative\\path" :=
  ⟨(winToWslPath_drive_rewrite_else_identity 'C' "Users\\alice\\proj".data
      "relative\\path").1 (by decide) (by decide),
   (winToWslPath_drive_rewrite_else_identity 'C' "Users\\alice\\proj".data
      "relative\\path").2.1 (by decide)⟩

/-- **C10** (confirmed): when the `cwd` argument of `terminal-create`
is absent or the empty string, `cwd || home` makes the spawn working
directory the detected user home directory, on both platform
branches. -/
theorem create_missing_cwd_defaults_home
    (isWin : Bool) (shellEnv : Option String) (claudeCmd home id : String)
    (cwd : Option String) (resume : Bool) (now : Nat) (st : TermState)
    (h : cwd = none ∨ cwd = some "") :
    (terminalCreate isWin shellEnv claudeCmd home id cwd resume now
      st).2.1.cwd = home := by
  rcases h with h | h <;> subst h <;> cases isWin <;>
    simp [terminalCreate, launchSpec]

/-- **C10** witness: a create call with no `cwd` on the POSIX branch
spawns in `/home/u`, the home directory. -/
theorem create_missing_cwd_defaults_home_witness :
    (terminalCreate false none defaultClaudeCmd "/home/u" "a" none false 0
      emptyTermState).2.1.cwd = "/home/u" :=
  create_missing_cwd_defaults_home false none defaultClaudeCmd "/home/u" "a"
    none false 0 emptyTermState (Or.inl rfl)

/-- **C4** (amended): the regular sync path itself checks document
absence — `ensureEditableSource` regenerates the guidance document
whenever it is absent, so deleting it and re-running the startup sync
*does* recreate it; the explicit reset path (`reset-soul`) merely
deletes it first and re-runs the same sync, so it too ends with the
default document; and while the document is present, no sync run ever
rewrites it (its content survives any sync, with any copy-failure
pattern). -/
theorem soul_regenerated_when_absent_never_rewritten
    (bundle overlay : Dir) (c : String) (fails : String → Bool) :
    (alookup overlay soulName = none →
      alookup (ensureEditableSource bundle noFail overlay).overlay soulName =
        some defaultSoul) ∧
    (alookup overlay soulName = some c →
      alookup (ensureEditableSource bundle fails overlay).overlay soulName =
        some c) ∧
    alookup (resetSoul bundle noFail overlay).overlay soulName =
      some defaultSoul := by
  have hnotin : soulName ∉ EDITABLE_FILES := by decide
  have hns : sidecarName ≠ soulName := by decide
  have habsent : ∀ ov2 : Dir, alookup ov2 soulName = none →
      alookup (ensureEditableSource bundle noFail ov2).overlay soulName =
        some defaultSoul := by
    intro ov2 h
    simp only [ensureEditableSource]
    split
    next ov evs f heq =>
      have hn := copyEditableLoop_nofail bundle
        (hashFiles bundle EDITABLE_FILES !=
          jsTrim ((alookup ov2 sidecarName).getD "")) EDITABLE_FILES ov2 []
      rw [heq] at hn
      simp at hn
    next ov evs heq =>
      have hl := copyEditableLoop_lookup_ne bundle noFail
        (hashFiles bundle EDITABLE_FILES !=
          jsTrim ((alookup ov2 sidecarName).getD ""))
        soulName EDITABLE_FILES ov2 [] hnotin
      rw [heq] at hl
      have hov : alookup ov soulName = none := by rw [hl]; exact h
      refine ensureAssets_writes_soul _ _ _ _ rfl rfl ?_
      split
      · rw [alookup_aset_ne _ _ _ _ hns]; exact hov
      · exact hov
  refine ⟨habsent overlay, ?_, ?_⟩
  · intro h
    simp only [ensureEditableSource]
    split
    next ov evs f heq =>
      have hl := copyEditableLoop_lookup_ne bundle fails
        (hashFiles bundle EDITABLE_FILES !=
          jsTrim ((alookup overlay sidecarName).getD ""))
        soulName EDITABLE_FILES overlay [] hnotin
      rw [heq] at hl
      rw [hl]
      exact h
    next ov evs heq =>
      have hl := copyEditableLoop_lookup_ne bundle fails
        (hashFiles bundle EDITABLE_FILES !=
          jsTrim ((alookup overlay sidecarName).getD ""))
        soulName EDITABLE_FILES overlay [] hnotin
      rw [heq] at hl
      have hov : alookup ov soulName = some c := by rw [hl]; exact h
      refine ensureAssets_lookup_soul _ _ _ _ _ ?_
      split
      · rw [alookup_aset_ne _ _ _ _ hns]; exact hov
      · exact hov
  · exact habsent (aerase overlay soulName) (alookup_aerase overlay soulName)

/-- **C4** witness: on the concrete bundle, deleting the guidance
document from a synced overlay and re-running the plain sync restores
the default document; a sync over the untouched overlay leaves the
document's content unchanged. -/
theorem soul_regenerated_when_absent_never_rewritten_witness :
    alookup (ensureEditableSource bundleEx noFail
        (aerase overlayAfterFirstSync soulName)).overlay soulName =
      some defaultSoul ∧
    alookup (ensureEditableSource bundleEx noFail
        overlayAfterFirstSync).overlay soulName = some defaultSoul :=
  ⟨(soul_regenerated_when_absent_never_rewritten bundleEx
      (aerase overlayAfterFirstSync soulName) "" noFail).1
      (alookup_aerase overlayAfterFirstSync soulName),
   (soul_regenerated_when_absent_never_rewritten bundleEx
      overlayAfterFirstSync defaultSoul noFail).2.1 (by rfl)⟩

/-- **C4** counterexample: delete `CLAUDE.md` from a synced overlay
*without* any reset call and re-run the regular startup sync: the
document is recreated (line 73 of src/main.js checks bare absence,
not "absence after a reset"), contradicting "re-running the regular
startup sync does not recreate it". -/
theorem soul_recreated_by_plain_sync :
    alookup (aerase overlayAfterFirstSync soulName) soulName = none ∧
    (alookup (ensureEditableSource bundleEx noFail
        (aerase overlayAfterFirstSync soulName)).overlay soulName).isSome =
      true := by
  constructor
  · exact alookup_aerase overlayAfterFirstSync soulName
  · rfl

/-- **C5** (amended): file-copy failures during the overlay sync and
during `reset-app-source` are *not* caught: the editable-file copy
loop has no try/catch, so a failing copy of the first editable file
(`renderer.js`) propagates as an exception to the caller, performs no
copy events, leaves the overlay untouched, and the remaining editable
files are never copied. -/
theorem copy_failure_propagates_and_aborts
    (bundle : Dir) (fails : String → Bool) (overlay : Dir) (v : String)
    (h1 : alookup bundle "renderer.js" = some v)
    (h2 : dexists overlay "renderer.js" = false)
    (h3 : fails "renderer.js" = true) :
    (ensureEditableSource bundle fails overlay).thrown =
      some "renderer.js" ∧
    (ensureEditableSource bundle fails overlay).events = [] ∧
    (ensureEditableSource bundle fails overlay).overlay = overlay ∧
    (resetAppSource bundle fails overlay).thrown = some "renderer.js" := by
  refine ⟨?_, ?_, ?_, ?_⟩ <;>
    simp [ensureEditableSource, resetAppSource, EDITABLE_FILES,
      copyEditableLoop, h1, h2, h3]

/-- **C5** witness: on the concrete bundle with a failing
`renderer.js` copy and an empty overlay, the sync throws, copies
nothing, and the reset handler throws too. -/
theorem copy_failure_propagates_and_aborts_witness :
    (ensureEditableSource bundleEx (fun f => f == "renderer.js") []).thrown =
      some "renderer.js" ∧
    (ensureEditableSource bundleEx (fun f => f == "renderer.js")
      []).events = [] ∧
    (ensureEditableSource bundleEx (fun f => f == "renderer.js")
      []).overlay = [] ∧
    (resetAppSource bundleEx (fun f => f == "renderer.js") []).thrown =
      some "renderer.js" :=
  copy_failure_propagates_and_aborts bundleEx (fun f => f == "renderer.js")
    [] "R1" (by decide) (by decide) (by decide)

/-- **C5** counterexample: with a failing `renderer.js` copy, the
sync run ends with a propagated exception (`thrown` is set — the
caller sees the failure) and `styles.css` was never copied —
contradicting "every individual file-copy failure is caught … a
failed copy of one editable file does not prevent the remaining
files from being copied, and no copy failure propagates as an
exception to the caller". -/
theorem copy_failure_not_caught :
    (ensureEditableSource bundleEx (fun f => f == "renderer.js") []).thrown =
      some "renderer.js" ∧
    dexists (ensureEditableSource bundleEx (fun f => f == "renderer.js")
      []).overlay "styles.css" = false := by
  decide

/-- **C6** (confirmed): whenever the digest computed over the bundled
editable files equals the (trimmed) digest cached in the sidecar and
the overlay copies of all editable files exist, the sync performs no
editable-file copy and does not rewrite the sidecar — its event log
contains no such event, whatever the copy-failure pattern.  Running
the sync twice in succession with an unchanged bundle realises these
premises on the second run (see the witness). -/
theorem sync_second_run_no_copies_no_sidecar
    (bundle : Dir) (fails : String → Bool) (overlay : Dir)
    (hdig : hashFiles bundle EDITABLE_FILES =
      jsTrim ((alookup overlay sidecarName).getD ""))
    (hex : ∀ f ∈ EDITABLE_FILES, dexists overlay f = true) :
    (ensureEditableSource bundle fails overlay).events.filter
      (fun e => e.isEditableCopy || e.isSidecarWrite) = [] := by
  have hsu : (hashFiles bundle EDITABLE_FILES !=
      jsTrim ((alookup overlay sidecarName).getD "")) = false := by
    rw [hdig]; exact bne_self_eq_false _
  simp only [ensureEditableSource, hsu,
    copyEditableLoop_skip bundle fails EDITABLE_FILES overlay [] hex,
    Bool.false_eq_true, if_false]
  rw [ensureAssets_filter _ _ _ _ _ rfl rfl rfl]
  rfl

/-- **C6** witness: run the sync twice from an empty overlay against
the unchanged concrete bundle; the second run's event log has no
editable-file copy and no sidecar rewrite. -/
theorem sync_second_run_no_copies_no_sidecar_witness :
    (ensureEditableSource bundleEx noFail overlayAfterFirstSync).events.filter
      (fun e => e.isEditableCopy || e.isSidecarWrite) = [] :=
  sync_second_run_no_copies_no_sidecar bundleEx noFail overlayAfterFirstSync
    (by decide) (by decide)

/-- **C7** (amended): at most one debounce timer is pending at any
instant (each qualifying event cancels and replaces the pending one,
never stacking), a burst with at least one qualifying event fires
exactly one action, namely the classification of the *last*
qualifying event of the burst; a reload-classified event arriving
while a patch is pending replaces the pending action with reload
immediately — but a later patch-classified event can replace it
again, so the fired action is reload only when no patch event
follows. -/
theorem debounce_single_slot_last_event_wins
    (st : List WatchAction) (evs : List (WatchSrc × Option String))
    (src : WatchSrc) (f : String) :
    (runWatch st evs =
      match lastQualifying evs with
      | none => st
      | some q => [classify q.1 q.2]) ∧
    (st.length ≤ 1 → (runWatch st evs).length ≤ 1) ∧
    (lastQualifying evs = some (src, f) →
      runWatch st evs = [classify src f]) ∧
    (qualifies src (some f) = true → classify src f = WatchAction.reload →
      handleWatchEvent [WatchAction.patch] (src, some f) =
        [WatchAction.reload]) := by
  refine ⟨runWatch_last evs st, ?_, ?_, ?_⟩
  · intro hst
    rw [runWatch_last evs st]
    cases hq : lastQualifying evs <;> simp [hst]
  · intro hq
    rw [runWatch_last evs st, hq]
  · intro hqf hcl
    simp [handleWatchEvent, hqf, hcl]

/-- **C7** witness: the burst `styles.css` then `renderer.js` fires
exactly one action, the reload classified from its last event; and a
reload-classified event immediately replaces a pending patch
timer. -/
theorem debounce_single_slot_last_event_wins_witness :
    runWatch [] [evCss, evJs] =
      [classify WatchSrc.mainDir "renderer.js"] ∧
    handleWatchEvent [WatchAction.patch]
      (WatchSrc.mainDir, some "renderer.js") = [WatchAction.reload] :=
  ⟨(debounce_single_slot_last_event_wins [] [evCss, evJs]
      WatchSrc.mainDir "renderer.js").2.2.1 (by decide),
   (debounce_single_slot_last_event_wins [] [] WatchSrc.mainDir
      "renderer.js").2.2.2 (by decide) (by decide)⟩

/-- **C7** counterexample: in the burst `styles.css`, `renderer.js`,
`styles.css`, the `renderer.js` event (classified reload) arrives
while a patch action is pending (the state after the first event is
one pending patch timer), yet the action that eventually fires for
the burst is `patch`, not `reload` — the debounce keeps only the last
event's classification, so a later patch event downgrades the pending
reload, contradicting "the action that eventually fires is
reload". -/
theorem reload_upgrade_can_be_downgraded :
    runWatch [] [evCss] = [WatchAction.patch] ∧
    qualifies evJs.1 evJs.2 = true ∧
    classify WatchSrc.mainDir "renderer.js" = WatchAction.reload ∧
    runWatch [] [evCss, evJs, evCss] = [WatchAction.patch] := by
  decide

end ClaudeSidebar
